import Mathlib

/-!
Shallow embedding of the two exporter scripts of this repository:
`src/Backend/scripts/blender_export.py` (GLB exporter) and
`src/Backend/scripts/maya_export.py` (OBJ exporter).

Each script is a linear sequence of host-API calls.  The host application is
modelled as an oracle structure: every host call either succeeds (returning
the data the script reads from it) or raises an exception carrying a message
string.  A run produces a trace of host events, the list of lines printed to
standard output, and a termination kind (normal return, sys.exit with a code,
or an uncaught exception escaping to the interpreter).
-/

namespace IDC

/-- An object of the modeling-host scene graph: a name and a type tag
(the scripts only test the tag against the string MESH). -/
structure BObject where
  name : String
  type : String
deriving DecidableEq

/-- A line printed to standard output.  `errorLine msg` embeds
`print(json.dumps({"error": msg}))`; `resultLine c p n` embeds
`print("EXPORT_RESULT:" + json.dumps({"success": True, "meshCount": c,
"outputPath": p, "fileSize": n}))`. -/
inductive OutLine
  | errorLine (msg : String)
  | resultLine (meshCount : Nat) (outputPath : String) (fileSize : Nat)
deriving DecidableEq

/-- JSON rendering of a string (scripts only ever serialise plain messages). -/
def jsonString (s : String) : String := "\"" ++ s ++ "\""

/-- The literal text of an output line, as json.dumps produces it. -/
def OutLine.render : OutLine → String
  | .errorLine m =>
      "\x7b\"error\": " ++ jsonString m ++ "\x7d"
  | .resultLine c p n =>
      "EXPORT_RESULT:" ++ "\x7b\"success\": true, \"meshCount\": " ++ toString c ++
        ", \"outputPath\": " ++ jsonString p ++ ", \"fileSize\": " ++ toString n ++ "\x7d"

/-- How the process terminates: falling off the end of the script (exit
status 0), an explicit sys.exit(code), or an exception escaping uncaught
(the interpreter prints a traceback to stderr and exits with status 1). -/
inductive PTerm
  | finished
  | exited (code : Nat)
  | uncaught (msg : String)
deriving DecidableEq

/-- The numeric process exit status of a termination kind. -/
def PTerm.exitCode : PTerm → Nat
  | .finished => 0
  | .exited n => n
  | .uncaught _ => 1

/-- Is the termination an uncaught exception? -/
def PTerm.isUncaught : PTerm → Bool
  | .uncaught _ => true
  | _ => false

/-- Result of running the body of a try block: normal completion, a
SystemExit raised by sys.exit (not caught by `except Exception`), or an
ordinary exception with its message. -/
inductive TryRes
  | normal
  | sysExit (code : Nat)
  | pyExc (msg : String)
deriving DecidableEq

/-- Script state: the trace of host-API events so far and the lines printed
to standard output so far. -/
structure St (ε : Type) where
  trace : List ε
  output : List OutLine
deriving DecidableEq

/-- Record a host-API event. -/
def St.ev {ε : Type} (s : St ε) (e : ε) : St ε := ⟨s.trace ++ [e], s.output⟩

/-- Print a line to standard output. -/
def St.pr {ε : Type} (s : St ε) (l : OutLine) : St ε := ⟨s.trace, s.output ++ [l]⟩

/-- The outcome of a whole process run. -/
structure RunResult (ε : Type) where
  trace : List ε
  output : List OutLine
  term : PTerm
deriving DecidableEq

/-! ### GLB exporter (blender_export.py) -/

/-- Host-API events of the GLB exporter. -/
inductive BEvent
  | reset
  | libLoad (path : String)
  | link (name : String)
  | deselectAll
  | selectSet (name : String)
  | openMain (path : String)
  | transformApply
  | exportGltf (path : String)
  | getSize (path : String)
deriving DecidableEq

/-- Oracle for the modeling host.  Each field gives the outcome of the
corresponding bpy call: `none` / `.ok` means the call succeeds (with the
data the script reads back), `some msg` / `.error msg` means it raises an
exception whose message is `msg`. -/
structure BlenderHost where
  resetFail : Option String
  loadObjects : Except String (List (Option BObject))
  linkFail : BObject → Option String
  deselectFail : Option String
  selectFail : BObject → Option String
  openObjects : Except String (List BObject)
  selectFail2 : BObject → Option String
  transformFail : Option String
  exportFail : Option String
  sizeResult : Except String Nat

/-- The message of the empty-scene validation failure. -/
def noMeshMsg : String := "No mesh objects found in file"

/-- The usage message of the GLB exporter. -/
def usageMsg : String := "Usage: blender --python script.py -- input.blend output.glb"

/-- Message of a Python IndexError on a list. -/
def indexErrMsg : String := "list index out of range"

/-- Message of the ValueError raised by list.index when the separator is absent. -/
def valueErrMsg : String := "-- is not in list"

/-- The loop `for obj in data_to.objects: if obj is not None:
scene.collection.objects.link(obj)`.  Skips None entries, links the rest;
any link call may raise. -/
def linkLoop (h : BlenderHost) : List (Option BObject) → St BEvent →
    St BEvent × Except String (List BObject)
  | [], s => (s, .ok [])
  | none :: rest, s => linkLoop h rest s
  | some o :: rest, s =>
    let s := s.ev (.link o.name)
    match h.linkFail o with
    | some m => (s, .error m)
    | none =>
      match linkLoop h rest s with
      | (s, .error m) => (s, .error m)
      | (s, .ok l) => (s, .ok (o :: l))

/-- The loop `for obj in <objects>: if obj.type == MESH:
obj.select_set(True); mesh_count += 1`, starting from count `n`. -/
def selectLoop (fail : BObject → Option String) : List BObject → Nat → St BEvent →
    St BEvent × Except String Nat
  | [], n, s => (s, .ok n)
  | o :: rest, n, s =>
    if o.type = "MESH" then
      let s := s.ev (.selectSet o.name)
      match fail o with
      | some m => (s, .error m)
      | none => selectLoop fail rest (n + 1) s
    else selectLoop fail rest n s

/-- Number of mesh-typed objects in a list. -/
def countMesh (l : List BObject) : Nat := (l.filter (fun o => o.type = "MESH")).length

/-- Tail of the try block once mesh_count is final: the zero-mesh validation
gate, transform apply, glTF export, output-size query, success print. -/
def glbTail (h : BlenderHost) (output_path : String) (mesh_count : Nat)
    (s : St BEvent) : St BEvent × TryRes :=
  if mesh_count = 0 then
    (s.pr (.errorLine noMeshMsg), .sysExit 1)
  else
    let s := s.ev .transformApply
    match h.transformFail with
    | some m => (s, .pyExc m)
    | none =>
      let s := s.ev (.exportGltf output_path)
      match h.exportFail with
      | some m => (s, .pyExc m)
      | none =>
        let s := s.ev (.getSize output_path)
        match h.sizeResult with
        | .error m => (s, .pyExc m)
        | .ok n => (s.pr (.resultLine mesh_count output_path n), .normal)

/-- The body of the try block of export_to_glb: library load, link loop,
deselect, select-and-count loop, fallback full-file open with recount when
the primary count is zero, then `glbTail`. -/
def glbTry (h : BlenderHost) (input_path output_path : String)
    (s : St BEvent) : St BEvent × TryRes :=
  let s := s.ev (.libLoad input_path)
  match h.loadObjects with
  | .error m => (s, .pyExc m)
  | .ok objs =>
    match linkLoop h objs s with
    | (s, .error m) => (s, .pyExc m)
    | (s, .ok linked) =>
      let s := s.ev .deselectAll
      match h.deselectFail with
      | some m => (s, .pyExc m)
      | none =>
        match selectLoop h.selectFail linked 0 s with
        | (s, .error m) => (s, .pyExc m)
        | (s, .ok mesh_count) =>
          if mesh_count = 0 then
            let s := s.ev (.openMain input_path)
            match h.openObjects with
            | .error m => (s, .pyExc m)
            | .ok objs2 =>
              match selectLoop h.selectFail2 objs2 0 s with
              | (s, .error m) => (s, .pyExc m)
              | (s, .ok mc2) => glbTail h output_path mc2 s
          else glbTail h output_path mesh_count s

/-- export_to_glb: the factory-settings reset happens before the try block,
so an exception there escapes uncaught; inside the try block, an ordinary
exception is caught, printed as a JSON error line, and turned into
sys.exit(1), while the SystemExit of the validation gate passes through
`except Exception` unhandled. -/
def export_to_glb (h : BlenderHost) (input_path output_path : String) :
    RunResult BEvent :=
  let s : St BEvent := ⟨[], []⟩
  let s := s.ev .reset
  match h.resetFail with
  | some m => ⟨s.trace, s.output, .uncaught m⟩
  | none =>
    match glbTry h input_path output_path s with
    | (s, .normal) => ⟨s.trace, s.output, .finished⟩
    | (s, .sysExit n) => ⟨s.trace, s.output, .exited n⟩
    | (s, .pyExc m) =>
      let s := s.pr (.errorLine m)
      ⟨s.trace, s.output, .exited 1⟩

/-- The main guard of blender_export.py: if len(sys.argv) < 4 print the
usage error and exit 1; otherwise take the arguments after the first
occurrence of the separator, read args[0] and args[1] (an IndexError
escapes uncaught when fewer than two are present, a ValueError when the
separator is absent), and call export_to_glb. -/
def blenderMain (h : BlenderHost) (argv : List String) : RunResult BEvent :=
  if argv.length < 4 then
    ⟨[], [.errorLine usageMsg], .exited 1⟩
  else
    match argv.findIdx? (fun a => a == "--") with
    | none => ⟨[], [], .uncaught valueErrMsg⟩
    | some i =>
      match argv.drop (i + 1) with
      | [] => ⟨[], [], .uncaught indexErrMsg⟩
      | [_] => ⟨[], [], .uncaught indexErrMsg⟩
      | a :: b :: _ => export_to_glb h a b

/-! ### OBJ exporter (maya_export.py) -/

/-- Host-API events of the OBJ exporter.  `standaloneInit` and
`standaloneUninit` embed maya.standalone initialize and uninitialize. -/
inductive MEvent
  | standaloneInit
  | openFile (path : String)
  | lsMesh
  | listRel (mesh : String)
  | selectCall
  | exportObj (path : String)
  | standaloneUninit
deriving DecidableEq

/-- Oracle for the animation host.  `lsResult` is the list of mesh-shape
node names returned by the mesh query; `parentOf` gives the list returned
by the parent query for a mesh (empty embeds both None and an empty list,
which the script treats alike); `outExists` and `outSize` model the
filesystem state of the output path after export. -/
structure MayaHost where
  openFail : Option String
  lsResult : Except String (List String)
  listRelFail : String → Option String
  parentOf : String → List String
  selectFail : Option String
  exportFail : Option String
  outExists : Bool
  outSize : Nat

/-- Concatenation of the parent lists of the given meshes, in order: the
value accumulated by `transforms.extend(parent)`. -/
def parentsConcat (h : MayaHost) : List String → List String
  | [] => []
  | m :: rest => h.parentOf m ++ parentsConcat h rest

/-- The loop `for mesh in meshes: parent = cmds.listRelatives(mesh,
parent=True); if parent: transforms.extend(parent)` with accumulator. -/
def collectParents (h : MayaHost) : List String → List String → St MEvent →
    St MEvent × Except String (List String)
  | [], acc, s => (s, .ok acc)
  | m :: rest, acc, s =>
    let s := s.ev (.listRel m)
    match h.listRelFail m with
    | some e => (s, .error e)
    | none => collectParents h rest (acc ++ h.parentOf m) s

/-- Tail of the try block of export_to_obj: OBJ export, output-size lookup
(0 when the output file does not exist), success print. -/
def mayaTail (h : MayaHost) (output_path : String) (meshes : List String)
    (s : St MEvent) : St MEvent × TryRes :=
  let s := s.ev (.exportObj output_path)
  match h.exportFail with
  | some m => (s, .pyExc m)
  | none =>
    let fileSize := if h.outExists then h.outSize else 0
    (s.pr (.resultLine meshes.length output_path fileSize), .normal)

/-- The body of the try block of export_to_obj: force-open, mesh query,
zero-mesh validation gate, parent collection, selection (skipped when the
collected list is empty), then `mayaTail`. -/
def mayaTry (h : MayaHost) (input_path output_path : String)
    (s : St MEvent) : St MEvent × TryRes :=
  let s := s.ev (.openFile input_path)
  match h.openFail with
  | some m => (s, .pyExc m)
  | none =>
    let s := s.ev .lsMesh
    match h.lsResult with
    | .error m => (s, .pyExc m)
    | .ok meshes =>
      if meshes = [] then
        (s.pr (.errorLine noMeshMsg), .sysExit 1)
      else
        match collectParents h meshes [] s with
        | (s, .error m) => (s, .pyExc m)
        | (s, .ok transforms) =>
          if transforms = [] then mayaTail h output_path meshes s
          else
            let s := s.ev .selectCall
            match h.selectFail with
            | some m => (s, .pyExc m)
            | none => mayaTail h output_path meshes s

/-- export_to_obj: the try body, an `except Exception` clause that prints
the JSON error line and raises SystemExit(1) (the SystemExit of the
validation gate passes through uncaught), and a finally clause that always runs
the standalone uninit before the function is left. -/
def export_to_obj (h : MayaHost) (input_path output_path : String)
    (s : St MEvent) : St MEvent × PTerm :=
  let r := mayaTry h input_path output_path s
  let t :=
    match r.2 with
    | .normal => (r.1, PTerm.finished)
    | .sysExit n => (r.1, PTerm.exited n)
    | .pyExc m => (r.1.pr (.errorLine m), PTerm.exited 1)
  (t.1.ev .standaloneUninit, t.2)

/-- The whole maya_export.py process: the standalone init runs at module
load time, before any access to sys.argv; the main block reads
sys.argv[1] and sys.argv[2] (an IndexError escapes uncaught when argv has
fewer than three entries) and calls export_to_obj. -/
def mayaMain (h : MayaHost) (argv : List String) : RunResult MEvent :=
  let s : St MEvent := ⟨[MEvent.standaloneInit], []⟩
  match argv with
  | _ :: a :: b :: _ =>
    let r := export_to_obj h a b s
    ⟨r.1.trace, r.1.output, r.2⟩
  | _ => ⟨s.trace, s.output, .uncaught indexErrMsg⟩

/-- The extra output produced after a try block by the except clause: a
caught exception prints one JSON error line, the other outcomes print
nothing further. -/
def errSuffix : TryRes → List OutLine
  | .pyExc m => [.errorLine m]
  | _ => []

/-- The process termination resulting from each try-block outcome when the
except clause maps a caught exception to sys.exit(1). -/
def termOfTry : TryRes → PTerm
  | .normal => .finished
  | .sysExit n => .exited n
  | .pyExc _ => .exited 1

/-! ### Concrete hosts for witnesses and counterexamples -/

/-- A mesh object used in concrete runs. -/
def cubeObj : BObject := ⟨"Cube", "MESH"⟩

/-- A modeling host on which every call succeeds and the library load
yields one mesh object. -/
def bHostOk : BlenderHost where
  resetFail := none
  loadObjects := .ok [some cubeObj]
  linkFail := fun _ => none
  deselectFail := none
  selectFail := fun _ => none
  openObjects := .ok []
  selectFail2 := fun _ => none
  transformFail := none
  exportFail := none
  sizeResult := .ok 1024

/-- An animation host on which every call succeeds, with one mesh shape
whose parent is one transform, and an output file of 2048 bytes. -/
def mHostOk : MayaHost where
  openFail := none
  lsResult := .ok ["meshShape1"]
  listRelFail := fun _ => none
  parentOf := fun _ => ["pCube1"]
  selectFail := none
  exportFail := none
  outExists := true
  outSize := 2048

/-- A modeling host whose library load raises. -/
def bHostLoadFail : BlenderHost := { bHostOk with loadObjects := .error "boom" }

/-- An animation host whose scene open raises. -/
def mHostOpenFail : MayaHost := { mHostOk with openFail := some "bad file" }

/-- A modeling host on which both load paths succeed but yield no objects
at all. -/
def bHostEmpty : BlenderHost :=
  { bHostOk with loadObjects := .ok [], openObjects := .ok [] }

/-- A modeling host whose primary load yields no objects but whose fallback
open finds one mesh. -/
def bHostFallback : BlenderHost :=
  { bHostOk with loadObjects := .ok [], openObjects := .ok [cubeObj] }

/-- An animation host on which no mesh shape has a transform parent. -/
def mHostNoParents : MayaHost := { mHostOk with parentOf := fun _ => [] }

/-! ### Helper lemmas: the loops never print, and their success forms -/

theorem linkLoop_output (h : BlenderHost) (l : List (Option BObject)) (s : St BEvent) :
    ((linkLoop h l s).1).output = s.output := by
  induction l generalizing s with
  | nil => simp [linkLoop]
  | cons o rest ih =>
    cases o with
    | none => simpa [linkLoop] using ih s
    | some o =>
      simp only [linkLoop]
      cases h.linkFail o with
      | some m => simp [St.ev]
      | none =>
        have hrec := ih (St.ev s (.link o.name))
        rcases hr : linkLoop h rest (St.ev s (.link o.name)) with ⟨s2, r⟩
        rw [hr] at hrec
        cases r <;> simpa [St.ev] using hrec

theorem selectLoop_output (fail : BObject → Option String) (l : List BObject)
    (n : Nat) (s : St BEvent) : ((selectLoop fail l n s).1).output = s.output := by
  induction l generalizing n s with
  | nil => simp [selectLoop]
  | cons o rest ih =>
    by_cases hm : o.type = "MESH"
    · simp only [selectLoop, if_pos hm]
      cases fail o with
      | some m => simp [St.ev]
      | none => simpa [St.ev] using ih (n + 1) (St.ev s (.selectSet o.name))
    · simpa [selectLoop, if_neg hm] using ih n s

theorem linkLoop_ok (h : BlenderHost) (l : List (Option BObject)) (s : St BEvent)
    (hf : ∀ o ∈ l.filterMap id, h.linkFail o = none) :
    linkLoop h l s =
      (⟨s.trace ++ (l.filterMap id).map (fun o => BEvent.link o.name), s.output⟩,
        .ok (l.filterMap id)) := by
  induction l generalizing s with
  | nil => simp [linkLoop]
  | cons o rest ih =>
    cases o with
    | none =>
      simpa [linkLoop] using ih s (by simpa using hf)
    | some o =>
      have ho : h.linkFail o = none := hf o (by simp)
      have hrest : ∀ x ∈ rest.filterMap id, h.linkFail x = none := by
        intro x hx; exact hf x (by simp [hx])
      simp only [linkLoop, ho]
      rw [ih (St.ev s (.link o.name)) hrest]
      simp [St.ev]

theorem selectLoop_ok (fail : BObject → Option String) (l : List BObject) (n : Nat)
    (s : St BEvent) (hf : ∀ o ∈ l, fail o = none) :
    selectLoop fail l n s =
      (⟨s.trace ++ (l.filter (fun o => o.type = "MESH")).map
          (fun o => BEvent.selectSet o.name), s.output⟩,
        .ok (n + countMesh l)) := by
  induction l generalizing n s with
  | nil => simp [selectLoop, countMesh]
  | cons o rest ih =>
    have hrest : ∀ x ∈ rest, fail x = none := fun x hx => hf x (by simp [hx])
    by_cases hm : o.type = "MESH"
    · have ho : fail o = none := hf o (by simp)
      simp only [selectLoop, if_pos hm, ho]
      rw [ih (n + 1) (St.ev s (.selectSet o.name)) hrest]
      simp only [St.ev, List.append_assoc, countMesh, List.filter_cons, hm]
      simp [Nat.add_assoc, Nat.add_comm 1]
    · simp only [selectLoop, if_neg hm]
      rw [ih n s hrest]
      simp [countMesh, List.filter_cons, hm]

theorem selectLoop_noMesh (fail : BObject → Option String) (l : List BObject)
    (n : Nat) (s : St BEvent) (h0 : countMesh l = 0) :
    selectLoop fail l n s = (s, .ok n) := by
  induction l generalizing n s with
  | nil => simp [selectLoop]
  | cons o rest ih =>
    have hm : ¬ o.type = "MESH" := by
      intro hm
      simp [countMesh, List.filter_cons, hm] at h0
    have h0r : countMesh rest = 0 := by
      simpa [countMesh, List.filter_cons, hm] using h0
    simp [selectLoop, hm, ih _ _ h0r]

/-! ### Case characterizations of the try blocks -/

theorem glbTail_cases (h : BlenderHost) (b : String) (mc : Nat) (s : St BEvent) :
    (∃ m, (glbTail h b mc s).2 = .pyExc m ∧ ((glbTail h b mc s).1).output = s.output) ∨
    ((glbTail h b mc s).2 = .sysExit 1 ∧
      ((glbTail h b mc s).1).output = s.output ++ [.errorLine noMeshMsg]) ∨
    (∃ k, (glbTail h b mc s).2 = .normal ∧
      ((glbTail h b mc s).1).output = s.output ++ [.resultLine mc b k]) := by
  unfold glbTail
  by_cases h0 : mc = 0
  · right; left; simp [h0, St.pr]
  · simp only [if_neg h0]
    cases h.transformFail with
    | some m => left; exact ⟨m, by simp [St.ev], by simp [St.ev]⟩
    | none =>
      cases h.exportFail with
      | some m => left; exact ⟨m, by simp [St.ev], by simp [St.ev]⟩
      | none =>
        cases h.sizeResult with
        | error m => left; exact ⟨m, by simp [St.ev], by simp [St.ev]⟩
        | ok k => right; right; exact ⟨k, by simp [St.ev, St.pr], by simp [St.ev, St.pr]⟩

theorem glbTry_cases (h : BlenderHost) (a b : String) (s : St BEvent) :
    (∃ m, (glbTry h a b s).2 = .pyExc m ∧ ((glbTry h a b s).1).output = s.output) ∨
    ((glbTry h a b s).2 = .sysExit 1 ∧
      ((glbTry h a b s).1).output = s.output ++ [.errorLine noMeshMsg]) ∨
    (∃ c k, (glbTry h a b s).2 = .normal ∧
      ((glbTry h a b s).1).output = s.output ++ [.resultLine c b k]) := by
  unfold glbTry
  cases hL : h.loadObjects with
  | error m => left; exact ⟨m, by simp [St.ev], by simp [St.ev]⟩
  | ok objs =>
    have hll := linkLoop_output h objs (St.ev s (.libLoad a))
    rcases hLL : linkLoop h objs (St.ev s (.libLoad a)) with ⟨s1, r1⟩
    rw [hLL] at hll
    simp only [St.ev] at hll
    simp only [hLL]
    cases r1 with
    | error m => left; exact ⟨m, by simp, by simp [hll]⟩
    | ok linked =>
      cases hD : h.deselectFail with
      | some m => left; exact ⟨m, by simp, by simp [St.ev, hll]⟩
      | none =>
        have hsl := selectLoop_output h.selectFail linked 0 (St.ev s1 .deselectAll)
        rcases hSL : selectLoop h.selectFail linked 0 (St.ev s1 .deselectAll) with ⟨s2, r2⟩
        rw [hSL] at hsl
        simp only [St.ev] at hsl
        simp only [hSL]
        cases r2 with
        | error m => left; exact ⟨m, by simp, by simp [hsl, hll]⟩
        | ok mc =>
          by_cases h0 : mc = 0
          · simp only [h0, if_pos rfl]
            cases hO : h.openObjects with
            | error m => left; exact ⟨m, by simp, by simp [St.ev, hsl, hll]⟩
            | ok objs2 =>
              have hsl2 := selectLoop_output h.selectFail2 objs2 0 (St.ev s2 (.openMain a))
              rcases hSL2 : selectLoop h.selectFail2 objs2 0 (St.ev s2 (.openMain a)) with ⟨s3, r3⟩
              rw [hSL2] at hsl2
              simp only [St.ev] at hsl2
              simp only [hSL2]
              cases r3 with
              | error m => left; exact ⟨m, by simp, by simp [hsl2, hsl, hll]⟩
              | ok mc2 =>
                have hout3 : s3.output = s.output := by rw [hsl2, hsl, hll]
                rcases glbTail_cases h b mc2 s3 with ⟨m, hm1, hm2⟩ | ⟨hm1, hm2⟩ | ⟨k, hm1, hm2⟩
                · left; exact ⟨m, by simpa using hm1, by simpa [hout3] using hm2⟩
                · right; left; exact ⟨by simpa using hm1, by simpa [hout3] using hm2⟩
                · right; right; exact ⟨mc2, k, by simpa using hm1, by simpa [hout3] using hm2⟩
          · simp only [if_neg h0]
            have hout2 : s2.output = s.output := by rw [hsl, hll]
            rcases glbTail_cases h b mc s2 with ⟨m, hm1, hm2⟩ | ⟨hm1, hm2⟩ | ⟨k, hm1, hm2⟩
            · left; exact ⟨m, hm1, by simpa [hout2] using hm2⟩
            · right; left; exact ⟨hm1, by simpa [hout2] using hm2⟩
            · right; right; exact ⟨mc, k, hm1, by simpa [hout2] using hm2⟩

theorem collectParents_output (h : MayaHost) (l acc : List String) (s : St MEvent) :
    ((collectParents h l acc s).1).output = s.output := by
  induction l generalizing acc s with
  | nil => simp [collectParents]
  | cons m rest ih =>
    simp only [collectParents]
    cases h.listRelFail m with
    | some e => simp [St.ev]
    | none => simpa [St.ev] using ih (acc ++ h.parentOf m) (St.ev s (.listRel m))

theorem collectParents_ok (h : MayaHost) (l acc : List String) (s : St MEvent)
    (hf : ∀ m ∈ l, h.listRelFail m = none) :
    collectParents h l acc s =
      (⟨s.trace ++ l.map MEvent.listRel, s.output⟩, .ok (acc ++ parentsConcat h l)) := by
  induction l generalizing acc s with
  | nil => simp [collectParents, parentsConcat]
  | cons m rest ih =>
    have hm : h.listRelFail m = none := hf m (by simp)
    simp only [collectParents, hm]
    rw [ih (acc ++ h.parentOf m) (St.ev s (.listRel m)) (fun x hx => hf x (by simp [hx]))]
    simp [St.ev, parentsConcat]

theorem mayaTry_cases (h : MayaHost) (a b : String) (s : St MEvent) :
    (∃ m, (mayaTry h a b s).2 = .pyExc m ∧ ((mayaTry h a b s).1).output = s.output) ∨
    ((mayaTry h a b s).2 = .sysExit 1 ∧
      ((mayaTry h a b s).1).output = s.output ++ [.errorLine noMeshMsg]) ∨
    (∃ c k, (mayaTry h a b s).2 = .normal ∧
      ((mayaTry h a b s).1).output = s.output ++ [.resultLine c b k]) := by
  unfold mayaTry
  cases hO : h.openFail with
  | some m => left; exact ⟨m, by simp [St.ev], by simp [St.ev]⟩
  | none =>
    cases hL : h.lsResult with
    | error m => left; exact ⟨m, by simp [St.ev], by simp [St.ev]⟩
    | ok meshes =>
      by_cases hE : meshes = []
      · right; left; simp [hE, St.ev, St.pr]
      · simp only [if_neg hE]
        have hcp := collectParents_output h meshes [] (St.ev (St.ev s (.openFile a)) .lsMesh)
        rcases hCP : collectParents h meshes [] (St.ev (St.ev s (.openFile a)) .lsMesh) with ⟨s1, r1⟩
        rw [hCP] at hcp
        simp only [St.ev] at hcp
        cases r1 with
        | error m => left; exact ⟨m, by simp, by simp [hcp]⟩
        | ok transforms =>
          have tail_cases : ∀ s2 : St MEvent, s2.output = s.output →
              (∃ m, (mayaTail h b meshes s2).2 = .pyExc m ∧
                ((mayaTail h b meshes s2).1).output = s.output) ∨
              ((mayaTail h b meshes s2).2 = .sysExit 1 ∧
                ((mayaTail h b meshes s2).1).output = s.output ++ [.errorLine noMeshMsg]) ∨
              (∃ c k, (mayaTail h b meshes s2).2 = .normal ∧
                ((mayaTail h b meshes s2).1).output = s.output ++ [.resultLine c b k]) := by
            intro s2 hout
            unfold mayaTail
            cases hX : h.exportFail with
            | some m => left; exact ⟨m, by simp [St.ev], by simp [St.ev, hout]⟩
            | none =>
              right; right
              exact ⟨meshes.length, if h.outExists then h.outSize else 0,
                by simp [St.ev, St.pr], by simp [St.ev, St.pr, hout]⟩
          by_cases hT : transforms = []
          · simp only [if_pos hT]
            exact tail_cases s1 hcp
          · simp only [if_neg hT]
            cases hS : h.selectFail with
            | some m => left; exact ⟨m, by simp, by simp [St.ev, hcp]⟩
            | none => exact tail_cases (St.ev s1 .selectCall) (by simp [St.ev, hcp])

/-! ### Run-shape lemmas for the full processes -/

theorem export_to_glb_run (h : BlenderHost) (a b : String)
    (hr : h.resetFail = none) :
    export_to_glb h a b =
      ⟨(glbTry h a b ⟨[BEvent.reset], []⟩).1.trace,
        (glbTry h a b ⟨[BEvent.reset], []⟩).1.output ++
          errSuffix (glbTry h a b ⟨[BEvent.reset], []⟩).2,
        termOfTry (glbTry h a b ⟨[BEvent.reset], []⟩).2⟩ := by
  unfold export_to_glb
  simp only [hr]
  have hs : St.ev (⟨[], []⟩ : St BEvent) BEvent.reset = ⟨[BEvent.reset], []⟩ := rfl
  rw [hs]
  rcases hg : glbTry h a b ⟨[BEvent.reset], []⟩ with ⟨s1, r⟩
  cases r <;> simp [errSuffix, termOfTry, St.pr]

theorem export_to_obj_run (h : MayaHost) (a b : String) (s : St MEvent) :
    export_to_obj h a b s =
      (⟨(mayaTry h a b s).1.trace ++ [MEvent.standaloneUninit],
         (mayaTry h a b s).1.output ++ errSuffix (mayaTry h a b s).2⟩,
        termOfTry (mayaTry h a b s).2) := by
  unfold export_to_obj
  rcases hg : mayaTry h a b s with ⟨s1, r⟩
  cases r <;> simp [errSuffix, termOfTry, St.pr, St.ev]

theorem mayaMain_run (h : MayaHost) (x a b : String) (rest : List String) :
    mayaMain h (x :: a :: b :: rest) =
      ⟨(mayaTry h a b ⟨[MEvent.standaloneInit], []⟩).1.trace ++ [MEvent.standaloneUninit],
        (mayaTry h a b ⟨[MEvent.standaloneInit], []⟩).1.output ++
          errSuffix (mayaTry h a b ⟨[MEvent.standaloneInit], []⟩).2,
        termOfTry (mayaTry h a b ⟨[MEvent.standaloneInit], []⟩).2⟩ := by
  show (⟨(export_to_obj h a b ⟨[MEvent.standaloneInit], []⟩).1.trace,
      (export_to_obj h a b ⟨[MEvent.standaloneInit], []⟩).1.output,
      (export_to_obj h a b ⟨[MEvent.standaloneInit], []⟩).2⟩ : RunResult MEvent) = _
  rw [export_to_obj_run]

theorem glbTry_pyExc_output (h : BlenderHost) (a b : String) (s : St BEvent) (m : String)
    (hm : (glbTry h a b s).2 = .pyExc m) : ((glbTry h a b s).1).output = s.output := by
  rcases glbTry_cases h a b s with ⟨m2, h1, h2⟩ | ⟨h1, h2⟩ | ⟨c, k, h1, h2⟩
  · exact h2
  · rw [hm] at h1; exact absurd h1 (by simp)
  · rw [hm] at h1; exact absurd h1 (by simp)

theorem mayaTry_pyExc_output (h : MayaHost) (a b : String) (s : St MEvent) (m : String)
    (hm : (mayaTry h a b s).2 = .pyExc m) : ((mayaTry h a b s).1).output = s.output := by
  rcases mayaTry_cases h a b s with ⟨m2, h1, h2⟩ | ⟨h1, h2⟩ | ⟨c, k, h1, h2⟩
  · exact h2
  · rw [hm] at h1; exact absurd h1 (by simp)
  · rw [hm] at h1; exact absurd h1 (by simp)

theorem count_uninit_snoc (t : List MEvent) (e : MEvent)
    (he : e ≠ MEvent.standaloneUninit) :
    (t ++ [e]).count MEvent.standaloneUninit = t.count MEvent.standaloneUninit := by
  have hne : ¬ (MEvent.standaloneUninit == e) = true := by
    simp only [beq_iff_eq]
    exact fun hx => he hx.symm
  simp [List.count_append, List.count_cons, hne, he]

theorem collectParents_count (h : MayaHost) (l acc : List String) (s : St MEvent) :
    (((collectParents h l acc s).1).trace).count MEvent.standaloneUninit =
      (s.trace).count MEvent.standaloneUninit := by
  induction l generalizing acc s with
  | nil => simp [collectParents]
  | cons m rest ih =>
    simp only [collectParents]
    have hne : MEvent.listRel m ≠ MEvent.standaloneUninit := fun hx => MEvent.noConfusion hx
    cases h.listRelFail m with
    | some e => exact count_uninit_snoc s.trace (.listRel m) hne
    | none =>
      rw [ih (acc ++ h.parentOf m) (St.ev s (.listRel m))]
      exact count_uninit_snoc s.trace (.listRel m) hne

theorem mayaTry_count (h : MayaHost) (a b : String) (s : St MEvent) :
    (((mayaTry h a b s).1).trace).count MEvent.standaloneUninit =
      (s.trace).count MEvent.standaloneUninit := by
  have hsnoc : ∀ (t : List MEvent) (e : MEvent), e ≠ MEvent.standaloneUninit →
      (t ++ [e]).count MEvent.standaloneUninit = t.count MEvent.standaloneUninit :=
    count_uninit_snoc
  have hev : ∀ (s2 : St MEvent) (e : MEvent), e ≠ MEvent.standaloneUninit →
      ((St.ev s2 e).trace).count MEvent.standaloneUninit =
        (s2.trace).count MEvent.standaloneUninit := by
    intro s2 e he
    simpa [St.ev] using hsnoc s2.trace e he
  unfold mayaTry
  cases h.openFail with
  | some m => exact hev s (.openFile a) (by simp)
  | none =>
    cases h.lsResult with
    | error m =>
      rw [hev _ .lsMesh (by simp), hev s (.openFile a) (by simp)]
    | ok meshes =>
      by_cases hE : meshes = []
      · simp only [if_pos hE, St.pr]
        rw [hev _ .lsMesh (by simp), hev s (.openFile a) (by simp)]
      · simp only [if_neg hE]
        have hcc := collectParents_count h meshes [] (St.ev (St.ev s (.openFile a)) .lsMesh)
        rcases hCP : collectParents h meshes [] (St.ev (St.ev s (.openFile a)) .lsMesh)
          with ⟨s1, r1⟩
        rw [hCP] at hcc
        have hs1 : (s1.trace).count MEvent.standaloneUninit =
            (s.trace).count MEvent.standaloneUninit := by
          rw [hcc, hev _ .lsMesh (by simp), hev s (.openFile a) (by simp)]
        have htail : ∀ s2 : St MEvent,
            (s2.trace).count MEvent.standaloneUninit =
              (s.trace).count MEvent.standaloneUninit →
            (((mayaTail h b meshes s2).1).trace).count MEvent.standaloneUninit =
              (s.trace).count MEvent.standaloneUninit := by
          intro s2 h2
          unfold mayaTail
          cases h.exportFail with
          | some m => rw [hev s2 (.exportObj b) (by simp), h2]
          | none =>
            simp only [St.pr]
            rw [hev s2 (.exportObj b) (by simp), h2]
        cases r1 with
        | error m => exact hs1
        | ok transforms =>
          by_cases hT : transforms = []
          · simp only [if_pos hT]
            exact htail s1 hs1
          · simp only [if_neg hT]
            cases h.selectFail with
            | some m => rw [hev s1 .selectCall (by simp), hs1]
            | none =>
              refine htail (St.ev s1 .selectCall) ?_
              rw [hev s1 .selectCall (by simp), hs1]

/-! ### Explicit evaluations of the try blocks on distinguished paths -/

theorem glbTry_noMesh (h : BlenderHost) (a b : String) (s : St BEvent)
    (objs : List (Option BObject)) (objs2 : List BObject)
    (h2 : h.loadObjects = .ok objs)
    (h3 : ∀ o ∈ objs.filterMap id, h.linkFail o = none)
    (h4 : h.deselectFail = none)
    (hc : countMesh (objs.filterMap id) = 0)
    (h6 : h.openObjects = .ok objs2)
    (hc2 : countMesh objs2 = 0) :
    glbTry h a b s =
      (⟨s.trace ++ [BEvent.libLoad a]
          ++ (objs.filterMap id).map (fun o => BEvent.link o.name)
          ++ [BEvent.deselectAll, BEvent.openMain a],
        s.output ++ [.errorLine noMeshMsg]⟩, .sysExit 1) := by
  unfold glbTry
  simp only [h2]
  simp only [linkLoop_ok h objs (St.ev s (BEvent.libLoad a)) h3]
  simp only [h4, selectLoop_noMesh, hc, hc2, h6, if_pos]
  unfold glbTail
  simp [St.ev, St.pr, List.append_assoc]

theorem glbTry_primary (h : BlenderHost) (a b : String) (s : St BEvent)
    (objs : List (Option BObject)) (k : Nat)
    (h2 : h.loadObjects = .ok objs)
    (h3 : ∀ o ∈ objs.filterMap id, h.linkFail o = none)
    (h4 : h.deselectFail = none)
    (h5 : ∀ o ∈ objs.filterMap id, h.selectFail o = none)
    (hc : countMesh (objs.filterMap id) ≠ 0)
    (h8 : h.transformFail = none) (h9 : h.exportFail = none)
    (h10 : h.sizeResult = .ok k) :
    glbTry h a b s =
      (⟨s.trace ++ [BEvent.libLoad a]
          ++ (objs.filterMap id).map (fun o => BEvent.link o.name)
          ++ [BEvent.deselectAll]
          ++ ((objs.filterMap id).filter (fun o => o.type = "MESH")).map
              (fun o => BEvent.selectSet o.name)
          ++ [BEvent.transformApply, BEvent.exportGltf b, BEvent.getSize b],
        s.output ++ [.resultLine (countMesh (objs.filterMap id)) b k]⟩, .normal) := by
  unfold glbTry
  simp only [h2]
  simp only [linkLoop_ok h objs (St.ev s (BEvent.libLoad a)) h3]
  simp only [h4]
  rw [selectLoop_ok h.selectFail (objs.filterMap id) 0 _ h5]
  simp only [Nat.zero_add, if_neg hc]
  unfold glbTail
  simp only [if_neg hc, h8, h9, h10]
  simp [St.ev, St.pr, List.append_assoc]

theorem glbTry_fallback (h : BlenderHost) (a b : String) (s : St BEvent)
    (objs : List (Option BObject)) (objs2 : List BObject) (k : Nat)
    (h2 : h.loadObjects = .ok objs)
    (h3 : ∀ o ∈ objs.filterMap id, h.linkFail o = none)
    (h4 : h.deselectFail = none)
    (hc : countMesh (objs.filterMap id) = 0)
    (h6 : h.openObjects = .ok objs2)
    (h7 : ∀ o ∈ objs2, h.selectFail2 o = none)
    (hc2 : countMesh objs2 ≠ 0)
    (h8 : h.transformFail = none) (h9 : h.exportFail = none)
    (h10 : h.sizeResult = .ok k) :
    glbTry h a b s =
      (⟨s.trace ++ [BEvent.libLoad a]
          ++ (objs.filterMap id).map (fun o => BEvent.link o.name)
          ++ [BEvent.deselectAll, BEvent.openMain a]
          ++ (objs2.filter (fun o => o.type = "MESH")).map
              (fun o => BEvent.selectSet o.name)
          ++ [BEvent.transformApply, BEvent.exportGltf b, BEvent.getSize b],
        s.output ++ [.resultLine (countMesh objs2) b k]⟩, .normal) := by
  unfold glbTry
  simp only [h2]
  simp only [linkLoop_ok h objs (St.ev s (BEvent.libLoad a)) h3]
  simp only [h4, selectLoop_noMesh, hc, h6, if_pos]
  rw [selectLoop_ok h.selectFail2 objs2 0 _ h7]
  simp only [Nat.zero_add]
  unfold glbTail
  simp only [if_neg hc2, h8, h9, h10]
  simp [St.ev, St.pr, List.append_assoc]

theorem parentsConcat_nil (h : MayaHost) (l : List String)
    (hp : ∀ m ∈ l, h.parentOf m = []) : parentsConcat h l = [] := by
  induction l with
  | nil => simp [parentsConcat]
  | cons m rest ih =>
    simp [parentsConcat, hp m (by simp), ih (fun x hx => hp x (by simp [hx]))]

theorem mayaTry_ok (h : MayaHost) (a b : String) (s : St MEvent)
    (meshes : List String)
    (h1 : h.openFail = none) (h2 : h.lsResult = .ok meshes) (h3 : meshes ≠ [])
    (h4 : ∀ mh ∈ meshes, h.listRelFail mh = none)
    (h5 : h.selectFail = none) (h6 : h.exportFail = none) :
    mayaTry h a b s =
      (⟨s.trace ++ [MEvent.openFile a, MEvent.lsMesh] ++ meshes.map MEvent.listRel
          ++ (if parentsConcat h meshes = [] then [] else [MEvent.selectCall])
          ++ [MEvent.exportObj b],
        s.output ++ [.resultLine meshes.length b (if h.outExists then h.outSize else 0)]⟩,
       .normal) := by
  unfold mayaTry
  simp only [h1, h2, if_neg h3]
  simp only [collectParents_ok h meshes [] (St.ev (St.ev s (MEvent.openFile a)) .lsMesh) h4]
  simp only [List.nil_append]
  by_cases hT : parentsConcat h meshes = []
  · simp only [if_pos hT]
    unfold mayaTail
    simp only [h6]
    simp [St.ev, St.pr, List.append_assoc]
  · simp only [if_neg hT, h5]
    unfold mayaTail
    simp only [h6]
    simp [St.ev, St.pr, List.append_assoc]

theorem blenderMain_run (h : BlenderHost) (argv : List String) (i : Nat)
    (x y : String) (r : List String) (hlen : ¬ argv.length < 4)
    (hidx : argv.findIdx? (fun a => a == "--") = some i)
    (hd : argv.drop (i + 1) = x :: y :: r) :
    blenderMain h argv = export_to_glb h x y := by
  unfold blenderMain
  simp only [hidx, hd]
  rw [if_neg hlen]

/-! ### The claims -/

/-- C1 (counterexample): the scene reset of the GLB exporter runs before the
try block, so when it raises an exception the run prints no JSON line at all
and the exception escapes uncaught, contradicting the claim that any step of
the conversion sequence, scene reset included, yields exactly one JSON error
line and exit code 1. -/
theorem claim1_counterexample :
    (export_to_glb { bHostOk with resetFail := some "boom" } "in.blend" "out.glb").output
        = [] ∧
    (export_to_glb { bHostOk with resetFail := some "boom" } "in.blend" "out.glb").term
        = .uncaught "boom" ∧
    (export_to_glb { bHostOk with resetFail := some "boom" } "in.blend" "out.glb").output
        ≠ [.errorLine "boom"] := by
  refine ⟨rfl, rfl, by decide⟩

/-- C1 (amended): if any step inside the try-protected portion of either
script raises an exception with message m (for the GLB exporter: library
load, linking, selection, fallback open, transform apply, export, size
query - the scene reset runs before the try block and is excluded; for the
OBJ exporter: any step of its try block), then the run prints exactly the
one JSON line with that message verbatim and exits with code 1. -/
theorem claim1_amended (hb : BlenderHost) (hm : MayaHost)
    (a b a2 b2 x : String) (rest : List String) (m m2 : String)
    (h1 : hb.resetFail = none)
    (h2 : (glbTry hb a b ⟨[BEvent.reset], []⟩).2 = .pyExc m)
    (h3 : (mayaTry hm a2 b2 ⟨[MEvent.standaloneInit], []⟩).2 = .pyExc m2) :
    ((export_to_glb hb a b).output = [.errorLine m] ∧
      (export_to_glb hb a b).term = .exited 1) ∧
    ((mayaMain hm (x :: a2 :: b2 :: rest)).output = [.errorLine m2] ∧
      (mayaMain hm (x :: a2 :: b2 :: rest)).term = .exited 1) := by
  constructor
  · rw [export_to_glb_run hb a b h1]
    have hout := glbTry_pyExc_output hb a b ⟨[BEvent.reset], []⟩ m h2
    constructor
    · show (glbTry hb a b ⟨[BEvent.reset], []⟩).1.output ++ _ = _
      rw [hout, h2]
      rfl
    · show termOfTry (glbTry hb a b ⟨[BEvent.reset], []⟩).2 = _
      rw [h2]
      rfl
  · rw [mayaMain_run]
    have hout := mayaTry_pyExc_output hm a2 b2 ⟨[MEvent.standaloneInit], []⟩ m2 h3
    constructor
    · show (mayaTry hm a2 b2 ⟨[MEvent.standaloneInit], []⟩).1.output ++ _ = _
      rw [hout, h3]
      rfl
    · show termOfTry (mayaTry hm a2 b2 ⟨[MEvent.standaloneInit], []⟩).2 = _
      rw [h3]
      rfl

/-- C1 witness: concrete hosts whose load and open calls raise; both runs
print exactly the one JSON error line and exit 1. -/
theorem claim1_witness :
    bHostLoadFail.resetFail = none ∧
    (glbTry bHostLoadFail "in.blend" "out.glb" ⟨[BEvent.reset], []⟩).2 = .pyExc "boom" ∧
    (mayaTry mHostOpenFail "in.ma" "out.obj" ⟨[MEvent.standaloneInit], []⟩).2
        = .pyExc "bad file" ∧
    (((export_to_glb bHostLoadFail "in.blend" "out.glb").output = [.errorLine "boom"] ∧
        (export_to_glb bHostLoadFail "in.blend" "out.glb").term = .exited 1) ∧
      ((mayaMain mHostOpenFail ["maya_export.py", "in.ma", "out.obj"]).output
          = [.errorLine "bad file"] ∧
        (mayaMain mHostOpenFail ["maya_export.py", "in.ma", "out.obj"]).term = .exited 1)) :=
  ⟨rfl, rfl, rfl,
    claim1_amended bHostLoadFail mHostOpenFail "in.blend" "out.glb" "in.ma" "out.obj"
      "maya_export.py" [] "boom" "bad file" rfl rfl rfl⟩

/-- C2 (counterexample): an invocation whose argv has at least four entries
but only one positional argument after the separator slips past the
len(sys.argv) < 4 guard and dies with an uncaught IndexError printing no
JSON at all, contradicting the claim that every invocation with fewer than
two positional arguments after the separator prints the usage JSON line and
exits 1. -/
theorem claim2_counterexample :
    (blenderMain bHostOk ["blender", "--python", "script.py", "--", "in.blend"]).output
        = [] ∧
    (blenderMain bHostOk ["blender", "--python", "script.py", "--", "in.blend"]).term
        = .uncaught indexErrMsg ∧
    (blenderMain bHostOk ["blender", "--python", "script.py", "--", "in.blend"]).output
        ≠ [.errorLine usageMsg] := by
  refine ⟨rfl, rfl, by decide⟩

/-- C2 (amended): the guard tests len(sys.argv) < 4, not the number of
arguments after the separator: when argv has fewer than four entries the
usage JSON line is printed, exit code is 1 and no host operation is
attempted; when argv has at least four entries but fewer than two arguments
follow the separator, an IndexError escapes uncaught, with no JSON line and
still no host operation attempted. -/
theorem claim2_amended (h : BlenderHost) (argv : List String) :
    (argv.length < 4 →
      blenderMain h argv = ⟨[], [.errorLine usageMsg], .exited 1⟩) ∧
    (∀ i, ¬ argv.length < 4 → argv.findIdx? (fun a => a == "--") = some i →
      (argv.drop (i + 1)).length < 2 →
      blenderMain h argv = ⟨[], [], .uncaught indexErrMsg⟩) := by
  constructor
  · intro hlen
    unfold blenderMain
    rw [if_pos hlen]
  · intro i hlen hidx hdrop
    unfold blenderMain
    simp only [hidx]
    rw [if_neg hlen]
    rcases hd : argv.drop (i + 1) with _ | ⟨u, _ | ⟨v, r⟩⟩
    · rfl
    · rfl
    · exfalso
      rw [hd] at hdrop
      simp at hdrop
      omega

/-- C2 witness: a short argv takes the usage branch; a four-entry argv
ending in the separator crashes with the uncaught IndexError. -/
theorem claim2_witness :
    blenderMain bHostOk ["blender"] = ⟨[], [.errorLine usageMsg], .exited 1⟩ ∧
    blenderMain bHostOk ["blender", "--python", "script.py", "--"]
        = ⟨[], [], .uncaught indexErrMsg⟩ :=
  ⟨(claim2_amended bHostOk ["blender"]).1 (by decide),
    (claim2_amended bHostOk ["blender", "--python", "script.py", "--"]).2 3 (by decide)
      (by decide) (by decide)⟩

/-- C3 (counterexample): a run of the OBJ exporter with no positional
arguments exits through an uncaught IndexError raised before export_to_obj
is entered, and the standalone runtime is never uninitialized, contradicting
the claim that every exit path of the process, any exception included, runs
the uninit exactly once. -/
theorem claim3_counterexample :
    mayaMain mHostOk ["maya_export.py"]
        = ⟨[MEvent.standaloneInit], [], .uncaught indexErrMsg⟩ ∧
    ((mayaMain mHostOk ["maya_export.py"]).trace).count MEvent.standaloneUninit = 0 :=
  ⟨rfl, rfl⟩

/-- C3 (amended): on every exit path that goes through export_to_obj -
success, the zero-mesh validation failure, or any exception raised inside
it - the standalone uninit is invoked exactly once, and it is the last host
call before the process exits; a run that dies before export_to_obj is
entered (missing arguments) exits without invoking it. -/
theorem claim3_amended (h : MayaHost) (x a b : String) (rest : List String) :
    ((mayaMain h (x :: a :: b :: rest)).trace).count MEvent.standaloneUninit = 1 ∧
    ((mayaMain h (x :: a :: b :: rest)).trace).getLast? = some MEvent.standaloneUninit := by
  rw [mayaMain_run]
  constructor
  · show ((mayaTry h a b ⟨[MEvent.standaloneInit], []⟩).1.trace
        ++ [MEvent.standaloneUninit]).count MEvent.standaloneUninit = 1
    rw [List.count_append, mayaTry_count]
    decide
  · show ((mayaTry h a b ⟨[MEvent.standaloneInit], []⟩).1.trace
        ++ [MEvent.standaloneUninit]).getLast? = some MEvent.standaloneUninit
    exact List.getLast?_concat _

/-- C4: when the library-style load links zero mesh-typed objects and the
fallback full-file open also yields zero mesh-typed objects, the GLB
exporter prints exactly the one no-mesh JSON error line, exits with code 1,
and the export operation is never invoked. -/
theorem claim4_thm (h : BlenderHost) (a b : String)
    (objs : List (Option BObject)) (objs2 : List BObject)
    (h1 : h.resetFail = none) (h2 : h.loadObjects = .ok objs)
    (h3 : ∀ o ∈ objs.filterMap id, h.linkFail o = none)
    (h4 : h.deselectFail = none)
    (hc : countMesh (objs.filterMap id) = 0)
    (h6 : h.openObjects = .ok objs2)
    (hc2 : countMesh objs2 = 0) :
    (export_to_glb h a b).output = [.errorLine noMeshMsg] ∧
    (export_to_glb h a b).term = .exited 1 ∧
    ∀ p, BEvent.exportGltf p ∉ (export_to_glb h a b).trace := by
  rw [export_to_glb_run h a b h1]
  rw [glbTry_noMesh h a b ⟨[BEvent.reset], []⟩ objs objs2 h2 h3 h4 hc h6 hc2]
  refine ⟨rfl, rfl, ?_⟩
  intro p hp
  simp only [List.mem_append, List.mem_cons, List.mem_singleton, List.mem_map] at hp
  rcases hp with ((hp | hp) | ⟨o, _, hp⟩) | (hp | hp) <;> simp_all

/-- C4 witness: on the empty-scene host the run prints the no-mesh error,
exits 1 and never reaches the export call. -/
theorem claim4_witness :
    bHostEmpty.resetFail = none ∧ bHostEmpty.loadObjects = .ok [] ∧
    bHostEmpty.deselectFail = none ∧ countMesh (([] : List (Option BObject)).filterMap id) = 0 ∧
    bHostEmpty.openObjects = .ok [] ∧ countMesh ([] : List BObject) = 0 ∧
    ((export_to_glb bHostEmpty "in.blend" "out.glb").output = [.errorLine noMeshMsg] ∧
      (export_to_glb bHostEmpty "in.blend" "out.glb").term = .exited 1 ∧
      ∀ p, BEvent.exportGltf p ∉ (export_to_glb bHostEmpty "in.blend" "out.glb").trace) :=
  ⟨rfl, rfl, rfl, rfl, rfl, rfl,
    claim4_thm bHostEmpty "in.blend" "out.glb" [] [] rfl rfl (by simp) rfl rfl rfl rfl⟩

/-- C5 (counterexample): a run of the OBJ exporter with only one positional
argument terminates through an uncaught IndexError and writes zero status
lines, contradicting the claim that every run writes exactly one
machine-readable status line. -/
theorem claim5_counterexample :
    (mayaMain mHostOk ["maya_export.py", "in.ma"]).output.length = 0 ∧
    (mayaMain mHostOk ["maya_export.py", "in.ma"]).term = .uncaught indexErrMsg :=
  ⟨rfl, rfl⟩

/-- C5 (amended): every run of either script that does not terminate
through an uncaught exception (argv errors of both scripts and the GLB
pre-try scene reset are the uncaught paths) writes exactly one
machine-readable status line: a resultLine with the success fields when the
run finishes normally, a bare errorLine when it fails, and then the exit
code is 1. -/
theorem claim5_amended (hb : BlenderHost) (hm : MayaHost) (argv argv2 : List String) :
    ((blenderMain hb argv).term.isUncaught = false →
      ((∃ c p n, (blenderMain hb argv).output = [.resultLine c p n] ∧
          (blenderMain hb argv).term = .finished) ∨
        (∃ e, (blenderMain hb argv).output = [.errorLine e] ∧
          (blenderMain hb argv).term = .exited 1))) ∧
    ((mayaMain hm argv2).term.isUncaught = false →
      ((∃ c p n, (mayaMain hm argv2).output = [.resultLine c p n] ∧
          (mayaMain hm argv2).term = .finished) ∨
        (∃ e, (mayaMain hm argv2).output = [.errorLine e] ∧
          (mayaMain hm argv2).term = .exited 1))) := by
  constructor
  · intro hu
    by_cases hlen : argv.length < 4
    · right
      refine ⟨usageMsg, ?_, ?_⟩ <;> simp [blenderMain, hlen]
    · cases hidx : argv.findIdx? (fun a => a == "--") with
      | none =>
        exfalso
        have hrun : blenderMain hb argv = ⟨[], [], .uncaught valueErrMsg⟩ := by
          unfold blenderMain
          simp only [hidx]
          rw [if_neg hlen]
        rw [hrun] at hu
        simp [PTerm.isUncaught] at hu
      | some i =>
        rcases hd : argv.drop (i + 1) with _ | ⟨u, _ | ⟨v, r⟩⟩
        · exfalso
          have hrun : blenderMain hb argv = ⟨[], [], .uncaught indexErrMsg⟩ := by
            unfold blenderMain
            simp only [hidx, hd]
            rw [if_neg hlen]
          rw [hrun] at hu
          simp [PTerm.isUncaught] at hu
        · exfalso
          have hrun : blenderMain hb argv = ⟨[], [], .uncaught indexErrMsg⟩ := by
            unfold blenderMain
            simp only [hidx, hd]
            rw [if_neg hlen]
          rw [hrun] at hu
          simp [PTerm.isUncaught] at hu
        · have hrun : blenderMain hb argv = export_to_glb hb u v :=
            blenderMain_run hb argv i u v r hlen hidx hd
          rw [hrun] at hu ⊢
          cases hres : hb.resetFail with
          | some m =>
            exfalso
            have hx : export_to_glb hb u v = ⟨[BEvent.reset], [], .uncaught m⟩ := by
              unfold export_to_glb
              simp only [hres]
              rfl
            rw [hx] at hu
            simp [PTerm.isUncaught] at hu
          | none =>
            rw [export_to_glb_run hb u v hres]
            rcases glbTry_cases hb u v ⟨[BEvent.reset], []⟩
              with ⟨m, e1, e2⟩ | ⟨e1, e2⟩ | ⟨c, k, e1, e2⟩
            · right
              refine ⟨m, ?_, ?_⟩
              · show (glbTry hb u v ⟨[BEvent.reset], []⟩).1.output ++ _ = _
                rw [e2, e1]
                rfl
              · show termOfTry (glbTry hb u v ⟨[BEvent.reset], []⟩).2 = _
                rw [e1]
                rfl
            · right
              refine ⟨noMeshMsg, ?_, ?_⟩
              · show (glbTry hb u v ⟨[BEvent.reset], []⟩).1.output ++ _ = _
                rw [e2, e1]
                rfl
              · show termOfTry (glbTry hb u v ⟨[BEvent.reset], []⟩).2 = _
                rw [e1]
                rfl
            · left
              refine ⟨c, v, k, ?_, ?_⟩
              · show (glbTry hb u v ⟨[BEvent.reset], []⟩).1.output ++ _ = _
                rw [e2, e1]
                rfl
              · show termOfTry (glbTry hb u v ⟨[BEvent.reset], []⟩).2 = _
                rw [e1]
                rfl
  · intro hu
    rcases argv2 with _ | ⟨x, _ | ⟨a, _ | ⟨b, r⟩⟩⟩
    · exfalso
      have hx : (mayaMain hm []).term = .uncaught indexErrMsg := rfl
      rw [hx] at hu
      simp [PTerm.isUncaught] at hu
    · exfalso
      have hx : (mayaMain hm [x]).term = .uncaught indexErrMsg := rfl
      rw [hx] at hu
      simp [PTerm.isUncaught] at hu
    · exfalso
      have hx : (mayaMain hm [x, a]).term = .uncaught indexErrMsg := rfl
      rw [hx] at hu
      simp [PTerm.isUncaught] at hu
    · rw [mayaMain_run]
      rcases mayaTry_cases hm a b ⟨[MEvent.standaloneInit], []⟩
        with ⟨m, e1, e2⟩ | ⟨e1, e2⟩ | ⟨c, k, e1, e2⟩
      · right
        refine ⟨m, ?_, ?_⟩
        · show (mayaTry hm a b ⟨[MEvent.standaloneInit], []⟩).1.output ++ _ = _
          rw [e2, e1]
          rfl
        · show termOfTry (mayaTry hm a b ⟨[MEvent.standaloneInit], []⟩).2 = _
          rw [e1]
          rfl
      · right
        refine ⟨noMeshMsg, ?_, ?_⟩
        · show (mayaTry hm a b ⟨[MEvent.standaloneInit], []⟩).1.output ++ _ = _
          rw [e2, e1]
          rfl
        · show termOfTry (mayaTry hm a b ⟨[MEvent.standaloneInit], []⟩).2 = _
          rw [e1]
          rfl
      · left
        refine ⟨c, b, k, ?_, ?_⟩
        · show (mayaTry hm a b ⟨[MEvent.standaloneInit], []⟩).1.output ++ _ = _
          rw [e2, e1]
          rfl
        · show termOfTry (mayaTry hm a b ⟨[MEvent.standaloneInit], []⟩).2 = _
          rw [e1]
          rfl

/-- C5 witness: two fully successful concrete runs, neither uncaught, each
writing exactly one status line. -/
theorem claim5_witness :
    ((blenderMain bHostOk
        ["blender", "--python", "script.py", "--", "in.blend", "out.glb"]).term.isUncaught
          = false ∧
      ((∃ c p n, (blenderMain bHostOk
            ["blender", "--python", "script.py", "--", "in.blend", "out.glb"]).output
              = [.resultLine c p n] ∧
          (blenderMain bHostOk
            ["blender", "--python", "script.py", "--", "in.blend", "out.glb"]).term
              = .finished) ∨
        (∃ e, (blenderMain bHostOk
            ["blender", "--python", "script.py", "--", "in.blend", "out.glb"]).output
              = [.errorLine e] ∧
          (blenderMain bHostOk
            ["blender", "--python", "script.py", "--", "in.blend", "out.glb"]).term
              = .exited 1))) ∧
    ((mayaMain mHostOk ["maya_export.py", "in.ma", "out.obj"]).term.isUncaught = false ∧
      ((∃ c p n, (mayaMain mHostOk ["maya_export.py", "in.ma", "out.obj"]).output
              = [.resultLine c p n] ∧
          (mayaMain mHostOk ["maya_export.py", "in.ma", "out.obj"]).term = .finished) ∨
        (∃ e, (mayaMain mHostOk ["maya_export.py", "in.ma", "out.obj"]).output
              = [.errorLine e] ∧
          (mayaMain mHostOk ["maya_export.py", "in.ma", "out.obj"]).term = .exited 1))) :=
  ⟨⟨rfl, (claim5_amended bHostOk mHostOk
      ["blender", "--python", "script.py", "--", "in.blend", "out.glb"]
      ["maya_export.py", "in.ma", "out.obj"]).1 rfl⟩,
    ⟨rfl, (claim5_amended bHostOk mHostOk
      ["blender", "--python", "script.py", "--", "in.blend", "out.glb"]
      ["maya_export.py", "in.ma", "out.obj"]).2 rfl⟩⟩

/-- C6: under a reset and a successful primary load/link/deselect/select
sequence, the GLB exporter opens the input as the main document exactly when
the primary library load linked zero mesh-typed objects; and in that case,
when the reopened scene has meshes and the remaining steps succeed, the
recount of the reopened scene is the meshCount reported on the success
line. -/
theorem claim6_thm (h : BlenderHost) (a b : String)
    (objs : List (Option BObject)) (objs2 : List BObject) (k : Nat)
    (h1 : h.resetFail = none) (h2 : h.loadObjects = .ok objs)
    (h3 : ∀ o ∈ objs.filterMap id, h.linkFail o = none)
    (h4 : h.deselectFail = none)
    (h5 : ∀ o ∈ objs.filterMap id, h.selectFail o = none)
    (h6 : h.openObjects = .ok objs2)
    (h7 : ∀ o ∈ objs2, h.selectFail2 o = none)
    (h8 : h.transformFail = none) (h9 : h.exportFail = none)
    (h10 : h.sizeResult = .ok k) :
    (BEvent.openMain a ∈ (export_to_glb h a b).trace ↔
      countMesh (objs.filterMap id) = 0) ∧
    (countMesh (objs.filterMap id) = 0 → countMesh objs2 ≠ 0 →
      (export_to_glb h a b).output = [.resultLine (countMesh objs2) b k]) := by
  rw [export_to_glb_run h a b h1]
  by_cases hc : countMesh (objs.filterMap id) = 0
  · by_cases hc2 : countMesh objs2 = 0
    · rw [glbTry_noMesh h a b ⟨[BEvent.reset], []⟩ objs objs2 h2 h3 h4 hc h6 hc2]
      refine ⟨?_, fun _ hne => absurd hc2 hne⟩
      simp [hc]
    · rw [glbTry_fallback h a b ⟨[BEvent.reset], []⟩ objs objs2 k h2 h3 h4 hc h6 h7 hc2
        h8 h9 h10]
      refine ⟨?_, fun _ _ => rfl⟩
      simp [hc]
  · rw [glbTry_primary h a b ⟨[BEvent.reset], []⟩ objs k h2 h3 h4 h5 hc h8 h9 h10]
    refine ⟨?_, fun hc0 _ => absurd hc0 hc⟩
    constructor
    · intro hmem
      exfalso
      simp only [List.mem_append, List.mem_cons, List.mem_singleton, List.mem_map] at hmem
      rcases hmem with ((((hx | hx) | ⟨o, _, hx⟩) | hx) | ⟨o, _, hx⟩) | (hx | (hx | hx))
        <;> simp_all
    · intro h0
      exact absurd h0 hc

/-- C6 witness: on the fallback host the trace contains the main-document
open and the reported meshCount is the fallback recount, 1. -/
theorem claim6_witness :
    bHostFallback.resetFail = none ∧ bHostFallback.loadObjects = .ok [] ∧
    bHostFallback.openObjects = .ok [cubeObj] ∧ bHostFallback.sizeResult = .ok 1024 ∧
    ((BEvent.openMain "in.blend" ∈ (export_to_glb bHostFallback "in.blend" "out.glb").trace ↔
        countMesh (([] : List (Option BObject)).filterMap id) = 0) ∧
      (countMesh (([] : List (Option BObject)).filterMap id) = 0 →
        countMesh [cubeObj] ≠ 0 →
        (export_to_glb bHostFallback "in.blend" "out.glb").output
          = [.resultLine (countMesh [cubeObj]) "out.glb" 1024])) :=
  ⟨rfl, rfl, rfl, rfl,
    claim6_thm bHostFallback "in.blend" "out.glb" [] [cubeObj] 1024 rfl rfl (by simp) rfl
      (by simp) rfl (by simp [bHostFallback, bHostOk]) rfl rfl rfl⟩

/-- C7: on a successful OBJ-exporter run with at least one mesh shape, the
reported meshCount is the number of mesh-shape nodes returned by the scene
query, the reported outputPath is the given output path, and the reported
fileSize is the output size, or 0 when the output file does not exist. -/
theorem claim7_thm (h : MayaHost) (x a b : String) (rest : List String)
    (meshes : List String)
    (h1 : h.openFail = none) (h2 : h.lsResult = .ok meshes) (h3 : meshes ≠ [])
    (h4 : ∀ mh ∈ meshes, h.listRelFail mh = none)
    (h5 : h.selectFail = none) (h6 : h.exportFail = none) :
    (mayaMain h (x :: a :: b :: rest)).output
        = [.resultLine meshes.length b (if h.outExists then h.outSize else 0)] ∧
    (mayaMain h (x :: a :: b :: rest)).term = .finished := by
  rw [mayaMain_run]
  rw [mayaTry_ok h a b ⟨[MEvent.standaloneInit], []⟩ meshes h1 h2 h3 h4 h5 h6]
  exact ⟨rfl, rfl⟩

/-- C7 witness: the all-success animation host reports one mesh, the given
output path, and size 2048. -/
theorem claim7_witness :
    mHostOk.openFail = none ∧ mHostOk.lsResult = .ok ["meshShape1"] ∧
    (["meshShape1"] : List String) ≠ [] ∧ mHostOk.selectFail = none ∧
    mHostOk.exportFail = none ∧
    ((mayaMain mHostOk ["maya_export.py", "in.ma", "out.obj"]).output
        = [.resultLine 1 "out.obj" 2048] ∧
      (mayaMain mHostOk ["maya_export.py", "in.ma", "out.obj"]).term = .finished) :=
  ⟨rfl, rfl, by simp, rfl, rfl,
    claim7_thm mHostOk "maya_export.py" "in.ma" "out.obj" [] ["meshShape1"]
      rfl rfl (by simp) (fun mh _ => rfl) rfl rfl⟩

/-- C8: the standalone runtime is initialized at module import, before any
argv access; a run with fewer than two positional arguments dies on the
sys.argv read with an uncaught IndexError, prints nothing, and never
reaches the uninit call. -/
theorem claim8_thm (h : MayaHost) (argv : List String) (hlen : argv.length < 3) :
    mayaMain h argv = ⟨[MEvent.standaloneInit], [], .uncaught indexErrMsg⟩ ∧
    ((mayaMain h argv).trace).count MEvent.standaloneUninit = 0 ∧
    (mayaMain h argv).output = [] := by
  rcases argv with _ | ⟨x, _ | ⟨a, _ | ⟨b, r⟩⟩⟩
  · exact ⟨rfl, rfl, rfl⟩
  · exact ⟨rfl, rfl, rfl⟩
  · exact ⟨rfl, rfl, rfl⟩
  · exfalso
    simp at hlen
    omega

/-- C8 witness: the one-argument run crashes before any cleanup, with no
output and the standalone init as the only host event. -/
theorem claim8_witness :
    (["maya_export.py", "in.ma"] : List String).length < 3 ∧
    (mayaMain mHostOk ["maya_export.py", "in.ma"]
        = ⟨[MEvent.standaloneInit], [], .uncaught indexErrMsg⟩ ∧
      ((mayaMain mHostOk ["maya_export.py", "in.ma"]).trace).count MEvent.standaloneUninit
          = 0 ∧
      (mayaMain mHostOk ["maya_export.py", "in.ma"]).output = []) :=
  ⟨by decide, claim8_thm mHostOk ["maya_export.py", "in.ma"] (by decide)⟩

theorem mayaTry_ok_noSelect (h : MayaHost) (a b : String) (s : St MEvent)
    (meshes : List String)
    (h1 : h.openFail = none) (h2 : h.lsResult = .ok meshes) (h3 : meshes ≠ [])
    (h4 : ∀ mh ∈ meshes, h.listRelFail mh = none)
    (hT : parentsConcat h meshes = [])
    (h6 : h.exportFail = none) :
    mayaTry h a b s =
      (⟨s.trace ++ [MEvent.openFile a, MEvent.lsMesh] ++ meshes.map MEvent.listRel
          ++ [MEvent.exportObj b],
        s.output ++ [.resultLine meshes.length b (if h.outExists then h.outSize else 0)]⟩,
       .normal) := by
  unfold mayaTry
  simp only [h1, h2, if_neg h3]
  simp only [collectParents_ok h meshes [] (St.ev (St.ev s (MEvent.openFile a)) .lsMesh) h4]
  simp only [List.nil_append, if_pos hT]
  unfold mayaTail
  simp only [h6]
  simp [St.ev, St.pr, List.append_assoc]

/-- C9: in a successful OBJ-exporter run the reported meshCount is the
length of the list returned by the mesh query, for every possible
transform-parent resolution, and two runs differing only in the parent
function report the same line: missing, shared or duplicated parents do not
change the count. -/
theorem claim9_thm (h : MayaHost) (p q : String → List String) (x a b : String)
    (rest : List String) (meshes : List String)
    (h1 : h.openFail = none) (h2 : h.lsResult = .ok meshes) (h3 : meshes ≠ [])
    (h4 : ∀ mh ∈ meshes, h.listRelFail mh = none)
    (h5 : h.selectFail = none) (h6 : h.exportFail = none) :
    (mayaMain { h with parentOf := p } (x :: a :: b :: rest)).output
        = [.resultLine meshes.length b (if h.outExists then h.outSize else 0)] ∧
    (mayaMain { h with parentOf := q } (x :: a :: b :: rest)).output
        = (mayaMain { h with parentOf := p } (x :: a :: b :: rest)).output := by
  have run : ∀ f : String → List String,
      (mayaMain { h with parentOf := f } (x :: a :: b :: rest)).output
        = [.resultLine meshes.length b (if h.outExists then h.outSize else 0)] := by
    intro f
    rw [mayaMain_run]
    rw [mayaTry_ok { h with parentOf := f } a b ⟨[MEvent.standaloneInit], []⟩ meshes
      h1 h2 h3 h4 h5 h6]
    rfl
  exact ⟨run p, (run q).trans (run p).symm⟩

/-- C9 witness: the same host once with all parents missing and once with a
duplicated shared parent reports the same success line with meshCount 1. -/
theorem claim9_witness :
    mHostOk.openFail = none ∧ mHostOk.lsResult = .ok ["meshShape1"] ∧
    (["meshShape1"] : List String) ≠ [] ∧ mHostOk.selectFail = none ∧
    mHostOk.exportFail = none ∧
    ((mayaMain { mHostOk with parentOf := fun _ => [] }
          ["maya_export.py", "in.ma", "out.obj"]).output
        = [.resultLine 1 "out.obj" 2048] ∧
      (mayaMain { mHostOk with parentOf := fun _ => ["t1", "t1"] }
          ["maya_export.py", "in.ma", "out.obj"]).output
        = (mayaMain { mHostOk with parentOf := fun _ => [] }
            ["maya_export.py", "in.ma", "out.obj"]).output) :=
  ⟨rfl, rfl, by simp, rfl, rfl,
    claim9_thm mHostOk (fun _ => []) (fun _ => ["t1", "t1"]) "maya_export.py" "in.ma"
      "out.obj" [] ["meshShape1"] rfl rfl (by simp) (fun mh _ => rfl) rfl rfl⟩

/-- C10: when the scene has at least one mesh shape but no mesh shape has a
transform parent, the accumulated selection list is empty, the selection
call is skipped entirely, and the OBJ export is still invoked, the run
finishing normally rather than failing validation. -/
theorem claim10_thm (h : MayaHost) (x a b : String) (rest : List String)
    (m0 : String) (ms : List String)
    (h1 : h.openFail = none) (h2 : h.lsResult = .ok (m0 :: ms))
    (h4 : ∀ mh ∈ m0 :: ms, h.listRelFail mh = none)
    (hp : ∀ mh ∈ m0 :: ms, h.parentOf mh = [])
    (h6 : h.exportFail = none) :
    MEvent.selectCall ∉ (mayaMain h (x :: a :: b :: rest)).trace ∧
    MEvent.exportObj b ∈ (mayaMain h (x :: a :: b :: rest)).trace ∧
    (mayaMain h (x :: a :: b :: rest)).term = .finished := by
  have hpc : parentsConcat h (m0 :: ms) = [] := parentsConcat_nil h _ hp
  rw [mayaMain_run]
  rw [mayaTry_ok_noSelect h a b ⟨[MEvent.standaloneInit], []⟩ (m0 :: ms) h1 h2 (by simp)
    h4 hpc h6]
  refine ⟨?_, ?_, rfl⟩
  · intro hmem
    simp only [List.mem_append, List.mem_cons, List.mem_singleton, List.mem_map] at hmem
    rcases hmem with (((hx | (hx | hx)) | ⟨o, _, hx⟩) | hx) | hx <;> simp_all
  · simp

/-- C10 witness: with one mesh and no parents the run skips selection,
reaches the OBJ export, and finishes normally. -/
theorem claim10_witness :
    mHostNoParents.openFail = none ∧ mHostNoParents.lsResult = .ok ["meshShape1"] ∧
    mHostNoParents.exportFail = none ∧
    (MEvent.selectCall ∉
        (mayaMain mHostNoParents ["maya_export.py", "in.ma", "out.obj"]).trace ∧
      MEvent.exportObj "out.obj" ∈
        (mayaMain mHostNoParents ["maya_export.py", "in.ma", "out.obj"]).trace ∧
      (mayaMain mHostNoParents ["maya_export.py", "in.ma", "out.obj"]).term = .finished) :=
  ⟨rfl, rfl, rfl,
    claim10_thm mHostNoParents "maya_export.py" "in.ma" "out.obj" [] "meshShape1" []
      rfl rfl (fun _ _ => rfl) (fun _ _ => rfl) rfl⟩

end IDC
